import Mathlib

/-!
Verification of the anomaly response pipeline of
`gordo_components/server/views/anomaly.py`.

The handler `AnomalyView._create_anomaly_response` is embedded shallowly:
the request-scoped state (`g.X`, `g.y`, `self.tags`, `self.frequency`,
`current_app.model`) becomes an explicit `ServerState`, Python exceptions
become an explicit `PyExc`/`Except` encoding, and the Flask response
becomes a `HandlerResult` carrying the JSON-like body and the HTTP status.
Cell values of dataframes are an opaque type `α` with decidable equality.
-/

/-- A Python exception, as far as the handler's `try/except AttributeError`
distinguishes them: an `AttributeError`, or any other exception. -/
inductive PyExc where
  | attributeError
  | other (msg : String)
deriving DecidableEq

/-- A multi-level-column dataframe (the Tabular Result): each column carries a
two-level label (top-level field name, second-level label), and each row is a
list of cells aligned with `columns`. -/
structure DataFrame (α : Type) where
  columns : List (String × String)
  rows : List (List α)
deriving DecidableEq

/-- The target dataframe `g.y`: a plain (single-level) column index plus rows.
Only `columns` is inspected by the handler; rows ride along to the model. -/
structure YFrame (α : Type) where
  columns : List String
  rows : List (List α)
deriving DecidableEq

/-- The served model `current_app.model`. `anomaly = none` models a model
object without an `anomaly` attribute (attribute access raises
`AttributeError`); `anomaly = some f` models an anomaly-capable model whose
computation may itself raise (left of `Except`) or return a Tabular Result. -/
structure Model (α : Type) where
  typeName : String
  anomaly : Option (DataFrame α → YFrame α → Nat → Except PyExc (DataFrame α))

/-- The request-scoped state visible to `_create_anomaly_response`:
`g.X`, `g.y`, the view's tag names and frequency, the served model, and the
elapsed wall-clock time at response-assembly time, in units of 10^-4 seconds
(the resolution at which `"%.4f"`-style formatting reads it). -/
structure ServerState (α : Type) where
  X : DataFrame α
  y : Option (YFrame α)
  tags : List String
  frequency : Nat
  model : Model α
  elapsed : Nat

/-- The value stored under one top-level field of a Nested Record: a bare
scalar, a list-wrapped scalar (for the date fields), or a mapping from tag
name to value. -/
inductive FieldVal (α : Type) where
  | scalar (v : α)
  | scalarList (vs : List α)
  | tagMap (m : List (String × α))
deriving DecidableEq

/-- One Nested Record: one JSON object per row, top-level field name to
field value, in field order. -/
def Record (α : Type) : Type := List (String × FieldVal α)

instance {α : Type} [DecidableEq α] : DecidableEq (Record α) := by
  unfold Record; infer_instance

/-- A JSON-like value of the response context dictionary. -/
inductive CtxVal (α : Type) where
  | data (records : List (Record α))
  | str (s : String)
  | nat (n : Nat)
deriving DecidableEq

/-- The response context dictionary (insertion-ordered, as a Python dict). -/
def Ctx (α : Type) : Type := List (String × CtxVal α)

instance {α : Type} [DecidableEq α] : DecidableEq (Ctx α) := by
  unfold Ctx; infer_instance

/-- The outcome of one handler invocation: a structured response
(serialized body plus transport status code), or an exception propagating
unhandled out of the handler. -/
inductive HandlerResult (α : Type) where
  | response (body : Ctx α) (status : Nat)
  | raised (e : PyExc)
deriving DecidableEq

/-- Decimal digit character for `n % 10`-style arguments (callers pass a
value already reduced below 10; larger values clamp to '9'). -/
def decDigit : Nat → Char
  | 0 => '0'
  | 1 => '1'
  | 2 => '2'
  | 3 => '3'
  | 4 => '4'
  | 5 => '5'
  | 6 => '6'
  | 7 => '7'
  | 8 => '8'
  | _ => '9'

/-- Digits of `n` in base 10, most significant first, prepended to `acc`;
`fuel ≥` the digit count makes the result exact. -/
def natDigitsAux : Nat → Nat → List Char → List Char
  | 0, _, acc => acc
  | fuel + 1, n, acc =>
    if n < 10 then decDigit n :: acc
    else natDigitsAux fuel (n / 10) (decDigit (n % 10) :: acc)

/-- The four fractional digits of an elapsed time of `n` ten-thousandths of a
second (callers pass `n % 10000`). -/
def frac4 (n : Nat) : List Char :=
  [decDigit (n / 1000 % 10), decDigit (n / 100 % 10),
   decDigit (n / 10 % 10), decDigit (n % 10)]

/-- Embedding of the Python format `f"{elapsed:.4f}"` applied to a
non-negative elapsed time of `n` ten-thousandths of a second: the integer
part in decimal, a dot, then exactly four fractional digits. -/
def format_seconds_4 (n : Nat) : String :=
  String.mk (natDigitsAux (n / 10000 + 1) (n / 10000) [] ++ '.' :: frac4 (n % 10000))

/-- Top-level field names in order of first occurrence among the columns. -/
def firstKeys (l : List String) : List String :=
  l.foldl (fun acc a => if a ∈ acc then acc else acc ++ [a]) []

/-- The two date fields whose scalar values stay list-wrapped. -/
def dateFields : List String := ["start", "end"]

/-- Modelled from the spec: the per-field step of the Table-to-Nested-Object
Transformer. Given one top-level field's column group (labelled cells of one
row), the field is per-tag when some second-level label matches a tag name,
in which case it maps tag name to value in column order; otherwise it is
scalar, list-wrapped for the date fields "start"/"end". -/
def fieldOfGroup {α : Type} (tags : List String) (f : String)
    (group : List ((String × String) × α)) : FieldVal α :=
  if group.any (fun c => c.fst.snd ∈ tags) then
    FieldVal.tagMap (group.map (fun c => (c.fst.snd, c.snd)))
  else
    match group.map Prod.snd with
    | [] => FieldVal.scalarList []
    | v :: _ => if f ∈ dateFields then FieldVal.scalarList [v] else FieldVal.scalar v

/-- Modelled from the spec: the per-row step of the Table-to-Nested-Object
Transformer (`gordo_components.server.utils.multi_lvl_column_dataframe_to_dict`,
whose source is not part of this repository snapshot). Columns are grouped by
top-level field name in order of first occurrence; each group becomes one
entry of the Nested Record. -/
def recordOfRow {α : Type} (tags : List String)
    (cols : List (String × String)) (row : List α) : Record α :=
  (firstKeys (cols.map Prod.fst)).map (fun f =>
    (f, fieldOfGroup tags f ((cols.zip row).filter (fun c => c.fst.fst = f))))

/-- Row-by-row transformation of the Tabular Result's rows. -/
def rowsToRecords {α : Type} (tags : List String)
    (cols : List (String × String)) : List (List α) → List (Record α)
  | [] => []
  | r :: rs => recordOfRow tags cols r :: rowsToRecords tags cols rs

/-- Modelled from the spec: the Table-to-Nested-Object Transformer
(`gordo_components.server.utils.multi_lvl_column_dataframe_to_dict`, whose
source is not part of this repository snapshot). One Nested Record per row of
the Tabular Result, in row order; the model's declared tag set classifies
per-tag versus scalar fields. -/
def multi_lvl_column_dataframe_to_dict {α : Type}
    (tags : List String) (df : DataFrame α) : List (Record α) :=
  rowsToRecords tags df.columns df.rows

/-- The error message of the missing-target branch, verbatim from the code. -/
def missing_y_message : String :=
  "Cannot perform anomaly without 'y' to compare against."

/-- The error message of the incompatible-target branch, verbatim. -/
def subset_message : String :=
  "y is not a subset of X, cannot do anomaly detection"

/-- The error message of the unsupported-model branch: an f-string embedding
the model's reported type. -/
def unsupported_message (typeName : String) : String :=
  "Model is not an AnomalyDetector, it is of type: " ++ typeName

/-- Embedding of `make_response(jsonify(context), context.pop("status-code", 200))`.
Python evaluates `jsonify(context)` before `context.pop(...)`, so the
serialized body is the context as it stands, including a "status-code" entry
if one is present; the pop only supplies the transport status, defaulting
to 200. (A non-integer value under "status-code" is outside the modelled
behavior and also defaults to 200 here.) -/
def finalize_response {α : Type} (ctx : Ctx α) : Ctx α × Nat :=
  (ctx,
   match ctx.lookup "status-code" with
   | some (CtxVal.nat n) => n
   | _ => 200)

namespace AnomalyView

/-- Embedding of the model-invocation and success-assembly tail of
`_create_anomaly_response`: the `try: current_app.model.anomaly(...)
except AttributeError:` block followed by construction of the response
context. -/
def model_step {α : Type} (st : ServerState α) (y : YFrame α) :
    HandlerResult α :=
  match st.model.anomaly with
  | none =>
    HandlerResult.response
      [("message", CtxVal.str (unsupported_message st.model.typeName))] 422
  | some f =>
    match f st.X y st.frequency with
    | Except.error PyExc.attributeError =>
      HandlerResult.response
        [("message", CtxVal.str (unsupported_message st.model.typeName))] 422
    | Except.error e => HandlerResult.raised e
    | Except.ok anomaly_df =>
      let ctx : Ctx α :=
        [("data", CtxVal.data (multi_lvl_column_dataframe_to_dict st.tags anomaly_df)),
         ("time-seconds", CtxVal.str (format_seconds_4 st.elapsed))]
      let finalized := finalize_response ctx
      HandlerResult.response finalized.fst finalized.snd

/-- Embedding of `AnomalyView._create_anomaly_response`: missing-target
check, target-compatibility check (`any(col in g.y.columns for col in
[t.name for t in self.tags])`), then the model step. -/
def create_anomaly_response {α : Type} (st : ServerState α) :
    HandlerResult α :=
  match st.y with
  | none =>
    HandlerResult.response [("message", CtxVal.str missing_y_message)] 400
  | some y =>
    if st.tags.any (fun t => y.columns.contains t) then model_step st y
    else
      HandlerResult.response [("message", CtxVal.str subset_message)] 400

/-- Embedding of `AnomalyView.post`: records a start time and delegates to
`_create_anomaly_response`. -/
def post {α : Type} (st : ServerState α) : HandlerResult α :=
  create_anomaly_response st

/-- Embedding of `AnomalyView.get`: records a start time and delegates to
`_create_anomaly_response`. -/
def get {α : Type} (st : ServerState α) : HandlerResult α :=
  create_anomaly_response st

end AnomalyView

/-- All cell values reachable inside one field value of a Nested Record. -/
def fieldValValues {α : Type} : FieldVal α → List α
  | FieldVal.scalar v => [v]
  | FieldVal.scalarList vs => vs
  | FieldVal.tagMap m => m.map Prod.snd

/-- All cell values reachable inside one Nested Record. -/
def recordValues {α : Type} (r : Record α) : List α :=
  (r.map (fun p => fieldValValues p.snd)).flatten

/-- The formatted-time shape required by the envelope contract: the character
data splits as an integer part free of dots, a single dot, and exactly four
decimal-digit characters. -/
def hasFourFracDigits (s : String) : Prop :=
  ∃ ip fp, s.data = ip ++ '.' :: fp ∧ fp.length = 4 ∧
    (∀ c ∈ fp, c.isDigit = true) ∧ ∀ c ∈ ip, c ≠ '.'

/-- The overlap test of line 150 succeeds exactly when some tag name of X
occurs among Y's column names. -/
lemma any_contains_iff (tags cols : List String) :
    (tags.any fun t => cols.contains t) = true ↔ ∃ t ∈ tags, t ∈ cols := by
  simp [List.any_eq_true]

/-- Disjointness of Y's columns from X's tags, as the claim phrases it,
agrees with the negation of the code's overlap test. -/
lemma disjoint_iff_not_any (tags cols : List String) :
    (∀ c ∈ cols, c ∉ tags) ↔ ¬((tags.any fun t => cols.contains t) = true) := by
  rw [any_contains_iff]
  constructor
  · rintro h ⟨t, ht, htc⟩
    exact h t htc ht
  · intro h c hc hct
    exact h ⟨c, hct, hc⟩

/-- C1: when Y is absent (`g.y is None`) the handler answers 400 with the
missing-target message, and the response does not depend on the served
model — in particular the model's anomaly operation is not invoked. -/
theorem anomaly_missing_target {α : Type} (st : ServerState α)
    (h : st.y = none) :
    AnomalyView.create_anomaly_response st =
      HandlerResult.response [("message", CtxVal.str missing_y_message)] 400 ∧
    ∀ m : Model α,
      AnomalyView.create_anomaly_response { st with model := m } =
        AnomalyView.create_anomaly_response st := by
  constructor
  · unfold AnomalyView.create_anomaly_response
    rw [h]
  · intro m
    unfold AnomalyView.create_anomaly_response
    simp only []
    rw [show ({ st with model := m } : ServerState α).y = st.y from rfl, h]

/-- A concrete request state with no Y, exercising the missing-target path. -/
def stMissingY : ServerState Int :=
  { X := ⟨[("start", ""), ("tag-anomaly", "tag-0")], [[0, 1]]⟩
    y := none
    tags := ["tag-0"]
    frequency := 600
    model := ⟨"KerasAutoEncoder", none⟩
    elapsed := 1937 }

/-- Witness for C1 at a concrete state. -/
theorem anomaly_missing_target_witness :
    AnomalyView.create_anomaly_response stMissingY =
      HandlerResult.response [("message", CtxVal.str missing_y_message)] 400 :=
  (anomaly_missing_target stMissingY rfl).1

/-- C2: with Y present, the handler answers 400 with the
y-not-a-subset message and leaves the model untouched exactly when no column
name of Y occurs among X's tag names; as soon as one column name is shared
(regardless of extra columns of Y), validation passes and the handler
proceeds to the model step. -/
theorem anomaly_incompatible_target {α : Type}
    (st : ServerState α) (y : YFrame α) (h : st.y = some y) :
    ((∀ c ∈ y.columns, c ∉ st.tags) ↔
      (AnomalyView.create_anomaly_response st =
        HandlerResult.response [("message", CtxVal.str subset_message)] 400 ∧
       ∀ m : Model α,
         AnomalyView.create_anomaly_response { st with model := m } =
           AnomalyView.create_anomaly_response st)) ∧
    ((∃ t ∈ st.tags, t ∈ y.columns) →
      AnomalyView.create_anomaly_response st = AnomalyView.model_step st y) := by
  have hpass : ∀ (st' : ServerState α), st'.y = some y →
      (st'.tags.any fun t => y.columns.contains t) = true →
      AnomalyView.create_anomaly_response st' = AnomalyView.model_step st' y := by
    intro st' h' hc
    unfold AnomalyView.create_anomaly_response
    rw [h']
    simp only [hc, if_true]
  have hfail : ∀ (st' : ServerState α), st'.y = some y →
      ¬((st'.tags.any fun t => y.columns.contains t) = true) →
      AnomalyView.create_anomaly_response st' =
        HandlerResult.response [("message", CtxVal.str subset_message)] 400 := by
    intro st' h' hc
    unfold AnomalyView.create_anomaly_response
    rw [h']
    have hcf : (st'.tags.any fun t => y.columns.contains t) = false :=
      Bool.eq_false_iff.mpr hc
    simp only [hcf, Bool.false_eq_true, if_false]
  constructor
  · constructor
    · intro hdisj
      have hc := (disjoint_iff_not_any st.tags y.columns).mp hdisj
      refine ⟨hfail st h hc, ?_⟩
      intro m
      rw [hfail st h hc, hfail { st with model := m } h hc]
    · intro ⟨hresp, hindep⟩
      rw [disjoint_iff_not_any]
      intro hc
      have h422 : AnomalyView.create_anomaly_response
          { st with model := ⟨st.model.typeName, none⟩ } =
          HandlerResult.response
            [("message", CtxVal.str (unsupported_message st.model.typeName))] 422 := by
        rw [hpass { st with model := ⟨st.model.typeName, none⟩ } h hc]
        unfold AnomalyView.model_step
        rfl
      rw [hindep ⟨st.model.typeName, none⟩, hresp] at h422
      simp at h422
  · intro hex
    exact hpass st h ((any_contains_iff st.tags y.columns).mpr hex)

/-- A concrete request state whose Y columns are disjoint from X's tags. -/
def stDisjointY : ServerState Int :=
  { X := ⟨[("start", ""), ("tag-anomaly", "tag-0")], [[0, 1]]⟩
    y := some ⟨["tag-5"], [[7]]⟩
    tags := ["tag-0", "tag-1"]
    frequency := 600
    model := ⟨"KerasAutoEncoder", none⟩
    elapsed := 1937 }

/-- Witness for C2 at a concrete state with disjoint columns. -/
theorem anomaly_incompatible_target_witness :
    AnomalyView.create_anomaly_response stDisjointY =
      HandlerResult.response [("message", CtxVal.str subset_message)] 400 :=
  (((anomaly_incompatible_target stDisjointY ⟨["tag-5"], [[7]]⟩ rfl).1).mp
    (by decide)).1

/-- C3: with both target validations passed and a model whose `anomaly`
attribute is absent, the handler answers 422 and the message embeds the
model's reported type name. -/
theorem anomaly_unsupported_model {α : Type}
    (st : ServerState α) (y : YFrame α) (h : st.y = some y)
    (hshare : (st.tags.any fun t => y.columns.contains t) = true)
    (hcap : st.model.anomaly = none) :
    AnomalyView.create_anomaly_response st =
      HandlerResult.response
        [("message", CtxVal.str (unsupported_message st.model.typeName))] 422 ∧
    ∃ pre, unsupported_message st.model.typeName = pre ++ st.model.typeName := by
  constructor
  · unfold AnomalyView.create_anomaly_response
    rw [h]
    simp only [hshare, if_true]
    unfold AnomalyView.model_step
    rw [hcap]
  · exact ⟨"Model is not an AnomalyDetector, it is of type: ", rfl⟩

/-- A concrete request state served by a model without anomaly capability. -/
def stPlainModel : ServerState Int :=
  { X := ⟨[("start", ""), ("tag-anomaly", "tag-0")], [[0, 1]]⟩
    y := some ⟨["tag-0"], [[7]]⟩
    tags := ["tag-0", "tag-1"]
    frequency := 600
    model := ⟨"StandardScaler", none⟩
    elapsed := 1937 }

/-- Witness for C3 at a concrete state with a non-anomaly model. -/
theorem anomaly_unsupported_model_witness :
    AnomalyView.create_anomaly_response stPlainModel =
      HandlerResult.response
        [("message", CtxVal.str (unsupported_message "StandardScaler"))] 422 :=
  (anomaly_unsupported_model stPlainModel ⟨["tag-0"], [[7]]⟩ rfl (by decide) rfl).1

/-- A capability-bearing model whose anomaly computation itself raises
`AttributeError` at runtime. -/
def attrErrModel : Model Int :=
  ⟨"KerasAutoEncoder", some (fun _ _ _ => Except.error PyExc.attributeError)⟩

/-- A request state that passes both validations against `attrErrModel`. -/
def stAttrErr : ServerState Int :=
  { X := ⟨[("start", ""), ("tag-anomaly", "tag-0")], [[0, 1]]⟩
    y := some ⟨["tag-0"], [[7]]⟩
    tags := ["tag-0", "tag-1"]
    frequency := 600
    model := attrErrModel
    elapsed := 1937 }

/-- Counterexample to C4 as stated: an anomaly-capable model whose
computation raises an `AttributeError` at runtime does NOT have that error
propagate out of the handler — the `except AttributeError:` clause catches
it and converts it into the 422 unsupported-model response. -/
theorem anomaly_attribute_error_is_caught :
    AnomalyView.create_anomaly_response stAttrErr =
      HandlerResult.response
        [("message", CtxVal.str (unsupported_message "KerasAutoEncoder"))] 422 ∧
    ∀ e : PyExc,
      AnomalyView.create_anomaly_response stAttrErr ≠ HandlerResult.raised e := by
  refine ⟨by decide, ?_⟩
  intro e hcontra
  rw [show AnomalyView.create_anomaly_response stAttrErr =
      HandlerResult.response
        [("message", CtxVal.str (unsupported_message "KerasAutoEncoder"))] 422
    from by decide] at hcontra
  exact HandlerResult.noConfusion hcontra

/-- C4 as amended: a runtime error other than `AttributeError` raised by an
anomaly-capable model's computation propagates unhandled out of the
handler. -/
theorem anomaly_runtime_error_propagates {α : Type}
    (st : ServerState α) (y : YFrame α)
    (f : DataFrame α → YFrame α → Nat → Except PyExc (DataFrame α))
    (msg : String) (h : st.y = some y)
    (hshare : (st.tags.any fun t => y.columns.contains t) = true)
    (hcap : st.model.anomaly = some f)
    (herr : f st.X y st.frequency = Except.error (PyExc.other msg)) :
    AnomalyView.create_anomaly_response st =
      HandlerResult.raised (PyExc.other msg) := by
  unfold AnomalyView.create_anomaly_response
  rw [h]
  simp only [hshare, if_true]
  unfold AnomalyView.model_step
  rw [hcap]
  simp only [herr]

/-- A capability-bearing model whose anomaly computation raises a
non-AttributeError runtime error. -/
def valueErrModel : Model Int :=
  ⟨"KerasAutoEncoder", some (fun _ _ _ => Except.error (PyExc.other "ValueError"))⟩

/-- A request state that passes both validations against `valueErrModel`. -/
def stValueErr : ServerState Int :=
  { X := ⟨[("start", ""), ("tag-anomaly", "tag-0")], [[0, 1]]⟩
    y := some ⟨["tag-0"], [[7]]⟩
    tags := ["tag-0", "tag-1"]
    frequency := 600
    model := valueErrModel
    elapsed := 1937 }

/-- Witness for the amended C4 at a concrete state. -/
theorem anomaly_runtime_error_propagates_witness :
    AnomalyView.create_anomaly_response stValueErr =
      HandlerResult.raised (PyExc.other "ValueError") :=
  anomaly_runtime_error_propagates stValueErr ⟨["tag-0"], [[7]]⟩
    (fun _ _ _ => Except.error (PyExc.other "ValueError")) "ValueError"
    rfl (by decide) rfl rfl

/-- C10: the GET and POST handlers delegate to the same response
construction, so on identical extracted state they return identical bodies
and status codes. -/
theorem post_get_equivalent {α : Type} (st : ServerState α) :
    AnomalyView.post st = AnomalyView.get st := rfl

/-- Above eight, `decDigit` clamps to the digit nine. -/
lemma decDigit_nine (m : Nat) : decDigit (m + 9) = '9' := rfl

/-- Every digit character produced by `decDigit` is a decimal digit. -/
lemma decDigit_isDigit : ∀ n : Nat, (decDigit n).isDigit = true
  | 0 | 1 | 2 | 3 | 4 | 5 | 6 | 7 | 8 => by decide
  | m + 9 => by rw [decDigit_nine]; decide

/-- No digit character produced by `decDigit` is a dot. -/
lemma decDigit_ne_dot : ∀ n : Nat, decDigit n ≠ '.'
  | 0 | 1 | 2 | 3 | 4 | 5 | 6 | 7 | 8 => by decide
  | m + 9 => by rw [decDigit_nine]; decide

/-- The integer-part digit run contains no dot (given a dot-free
accumulator). -/
lemma natDigitsAux_ne_dot :
    ∀ (fuel n : Nat) (acc : List Char), (∀ c ∈ acc, c ≠ '.') →
      ∀ c ∈ natDigitsAux fuel n acc, c ≠ '.' := by
  intro fuel
  induction fuel with
  | zero => intro n acc hacc c hc; exact hacc c hc
  | succ f ih =>
    intro n acc hacc c hc
    unfold natDigitsAux at hc
    by_cases h10 : n < 10
    · rw [if_pos h10] at hc
      rcases List.mem_cons.mp hc with hceq | hcm
      · rw [hceq]; exact decDigit_ne_dot n
      · exact hacc c hcm
    · rw [if_neg h10] at hc
      refine ih (n / 10) (decDigit (n % 10) :: acc) ?_ c hc
      intro c' hc'
      rcases List.mem_cons.mp hc' with hceq | hcm
      · rw [hceq]; exact decDigit_ne_dot (n % 10)
      · exact hacc c' hcm

/-- The `:.4f`-style formatter always yields an integer part without dots,
one dot, and exactly four decimal digits after it. -/
lemma format_seconds_4_shape (n : Nat) :
    hasFourFracDigits (format_seconds_4 n) := by
  refine ⟨natDigitsAux (n / 10000 + 1) (n / 10000) [], frac4 (n % 10000),
    rfl, rfl, ?_, ?_⟩
  · intro c hc
    unfold frac4 at hc
    simp only [List.mem_cons, List.not_mem_nil, or_false] at hc
    rcases hc with h | h | h | h
    · rw [h]; exact decDigit_isDigit _
    · rw [h]; exact decDigit_isDigit _
    · rw [h]; exact decDigit_isDigit _
    · rw [h]; exact decDigit_isDigit _
  · exact natDigitsAux_ne_dot (n / 10000 + 1) (n / 10000) [] (by intro c hc; cases hc)

/-- The success context built by the handler has no "status-code" entry. -/
lemma success_ctx_lookup_status_none {α : Type}
    (recs : List (Record α)) (ts : String) :
    (([("data", CtxVal.data recs), ("time-seconds", CtxVal.str ts)] :
      Ctx α).lookup "status-code") = none := rfl

/-- Shared success-path computation: once both validations pass and the
model's anomaly operation returns a Tabular Result, the handler responds 200
with the two-key context, the pop of "status-code" having defaulted. -/
lemma create_anomaly_response_success {α : Type}
    (st : ServerState α) (y : YFrame α)
    (f : DataFrame α → YFrame α → Nat → Except PyExc (DataFrame α))
    (df : DataFrame α) (h : st.y = some y)
    (hshare : (st.tags.any fun t => y.columns.contains t) = true)
    (hcap : st.model.anomaly = some f)
    (hok : f st.X y st.frequency = Except.ok df) :
    AnomalyView.create_anomaly_response st =
      HandlerResult.response
        [("data", CtxVal.data (multi_lvl_column_dataframe_to_dict st.tags df)),
         ("time-seconds", CtxVal.str (format_seconds_4 st.elapsed))] 200 := by
  unfold AnomalyView.create_anomaly_response
  rw [h]
  simp only [hshare, if_true]
  unfold AnomalyView.model_step
  rw [hcap]
  simp only [hok]
  rfl

/-- C5: every successful response carries exactly the keys "data" and
"time-seconds" (the former empty for a zero-row Tabular Result) and the
elapsed time is formatted with exactly 4 digits after the decimal point. -/
theorem anomaly_success_envelope {α : Type}
    (st : ServerState α) (y : YFrame α)
    (f : DataFrame α → YFrame α → Nat → Except PyExc (DataFrame α))
    (df : DataFrame α) (h : st.y = some y)
    (hshare : (st.tags.any fun t => y.columns.contains t) = true)
    (hcap : st.model.anomaly = some f)
    (hok : f st.X y st.frequency = Except.ok df) :
    ∃ body : Ctx α, AnomalyView.create_anomaly_response st =
        HandlerResult.response body 200 ∧
      body.lookup "data" =
        some (CtxVal.data (multi_lvl_column_dataframe_to_dict st.tags df)) ∧
      body.lookup "time-seconds" =
        some (CtxVal.str (format_seconds_4 st.elapsed)) ∧
      hasFourFracDigits (format_seconds_4 st.elapsed) ∧
      (df.rows = [] → multi_lvl_column_dataframe_to_dict st.tags df = []) := by
  refine ⟨_, create_anomaly_response_success st y f df h hshare hcap hok,
    rfl, ?_, format_seconds_4_shape st.elapsed, ?_⟩
  · rfl
  · intro hrows
    unfold multi_lvl_column_dataframe_to_dict
    rw [hrows]
    rfl

/-- A concrete zero-row Tabular Result. -/
def dfEmpty : DataFrame Int := ⟨[("start", ""), ("tag-anomaly", "tag-0")], []⟩

/-- A model whose anomaly computation succeeds with a zero-row result. -/
def okEmptyModel : Model Int :=
  ⟨"KerasAutoEncoder", some (fun _ _ _ => Except.ok dfEmpty)⟩

/-- A request state that reaches the success path with a zero-row result. -/
def stSuccess : ServerState Int :=
  { X := ⟨[("start", ""), ("tag-anomaly", "tag-0")], [[0, 1]]⟩
    y := some ⟨["tag-0"], [[7]]⟩
    tags := ["tag-0", "tag-1"]
    frequency := 600
    model := okEmptyModel
    elapsed := 1937 }

/-- Witness for C5 at a concrete state with a zero-row Tabular Result. -/
theorem anomaly_success_envelope_witness :
    ∃ body : Ctx Int, AnomalyView.create_anomaly_response stSuccess =
        HandlerResult.response body 200 ∧
      body.lookup "data" =
        some (CtxVal.data (multi_lvl_column_dataframe_to_dict stSuccess.tags dfEmpty)) ∧
      body.lookup "time-seconds" =
        some (CtxVal.str (format_seconds_4 stSuccess.elapsed)) ∧
      hasFourFracDigits (format_seconds_4 stSuccess.elapsed) ∧
      (dfEmpty.rows = [] →
        multi_lvl_column_dataframe_to_dict stSuccess.tags dfEmpty = []) :=
  anomaly_success_envelope stSuccess ⟨["tag-0"], [[7]]⟩
    (fun _ _ _ => Except.ok dfEmpty) dfEmpty rfl (by decide) rfl rfl

/-- Counterexample to C6 as stated: the embedding of
`make_response(jsonify(context), context.pop("status-code", 200))` serializes
the context before the pop runs (Python evaluates `jsonify(context)` first),
so a context that does hold a "status-code" entry keeps it in the serialized
body — it is not removed before serialization; the pop only supplies the
transport status. -/
theorem status_code_not_removed_before_serialization :
    ((finalize_response ([("status-code", CtxVal.nat 400)] : Ctx Int)).1).lookup
        "status-code" = some (CtxVal.nat 400) ∧
    (finalize_response ([("status-code", CtxVal.nat 400)] : Ctx Int)).2 = 400 := by
  decide

/-- C6 as amended: the serialized success payload never contains a
"status-code" field because the handler never inserts one into its context
(its keys are exactly "data" and "time-seconds"); the status code reaches
the transport layer only through the pop's result. -/
theorem anomaly_success_body_has_no_status_code {α : Type}
    (st : ServerState α) (y : YFrame α)
    (f : DataFrame α → YFrame α → Nat → Except PyExc (DataFrame α))
    (df : DataFrame α) (h : st.y = some y)
    (hshare : (st.tags.any fun t => y.columns.contains t) = true)
    (hcap : st.model.anomaly = some f)
    (hok : f st.X y st.frequency = Except.ok df) :
    ∃ body : Ctx α, AnomalyView.create_anomaly_response st =
        HandlerResult.response body 200 ∧
      body.map Prod.fst = ["data", "time-seconds"] ∧
      body.lookup "status-code" = none := by
  exact ⟨_, create_anomaly_response_success st y f df h hshare hcap hok,
    rfl, success_ctx_lookup_status_none _ _⟩

/-- Witness for the amended C6 at a concrete state. -/
theorem anomaly_success_body_has_no_status_code_witness :
    ∃ body : Ctx Int, AnomalyView.create_anomaly_response stSuccess =
        HandlerResult.response body 200 ∧
      body.map Prod.fst = ["data", "time-seconds"] ∧
      body.lookup "status-code" = none :=
  anomaly_success_body_has_no_status_code stSuccess ⟨["tag-0"], [[7]]⟩
    (fun _ _ _ => Except.ok dfEmpty) dfEmpty rfl (by decide) rfl rfl

/-- C9: the handler never inserts a "status-code" key into its context, so
`context.pop("status-code", 200)` always yields its default and every
successful response is returned with HTTP status exactly 200. -/
theorem anomaly_success_status_200 {α : Type}
    (st : ServerState α) (y : YFrame α)
    (f : DataFrame α → YFrame α → Nat → Except PyExc (DataFrame α))
    (df : DataFrame α) (h : st.y = some y)
    (hshare : (st.tags.any fun t => y.columns.contains t) = true)
    (hcap : st.model.anomaly = some f)
    (hok : f st.X y st.frequency = Except.ok df) :
    ∃ body : Ctx α,
      body.lookup "status-code" = none ∧
      (finalize_response body).2 = 200 ∧
      AnomalyView.create_anomaly_response st =
        HandlerResult.response body 200 := by
  exact ⟨_, success_ctx_lookup_status_none _ _, rfl,
    create_anomaly_response_success st y f df h hshare hcap hok⟩

/-- Witness for C9 at a concrete state. -/
theorem anomaly_success_status_200_witness :
    ∃ body : Ctx Int,
      body.lookup "status-code" = none ∧
      (finalize_response body).2 = 200 ∧
      AnomalyView.create_anomaly_response stSuccess =
        HandlerResult.response body 200 :=
  anomaly_success_status_200 stSuccess ⟨["tag-0"], [[7]]⟩
    (fun _ _ _ => Except.ok dfEmpty) dfEmpty rfl (by decide) rfl rfl

/-- The row-by-row transformation is exactly a map over the rows. -/
lemma rowsToRecords_eq_map {α : Type} (tags : List String)
    (cols : List (String × String)) :
    ∀ rows : List (List α),
      rowsToRecords tags cols rows = rows.map (recordOfRow tags cols)
  | [] => rfl
  | r :: rs => by
    unfold rowsToRecords
    rw [rowsToRecords_eq_map tags cols rs, List.map_cons]

/-- C7: the transformer yields one Nested Record per row — length equals the
row count (a zero-row table yields the empty sequence, not an error) — and
the record at every index is exactly the transform of the row at that index,
so row order is preserved with no resorting and no deduplication. -/
theorem transformer_preserves_rows {α : Type} (tags : List String)
    (df : DataFrame α) :
    (multi_lvl_column_dataframe_to_dict tags df).length = df.rows.length ∧
    ∀ i : Nat, (multi_lvl_column_dataframe_to_dict tags df)[i]? =
      (df.rows[i]?).map (recordOfRow tags df.columns) := by
  unfold multi_lvl_column_dataframe_to_dict
  rw [rowsToRecords_eq_map]
  exact ⟨List.length_map df.rows (recordOfRow tags df.columns),
    fun i => List.getElem?_map (recordOfRow tags df.columns) df.rows i⟩

/-- Every value inside one field of a Nested Record comes from that field's
column group. -/
lemma fieldOfGroup_values {α : Type} (tags : List String) (f : String)
    (group : List ((String × String) × α)) (v : α)
    (hv : v ∈ fieldValValues (fieldOfGroup tags f group)) :
    v ∈ group.map Prod.snd := by
  unfold fieldOfGroup at hv
  by_cases hc : group.any (fun c => c.fst.snd ∈ tags)
  · rw [if_pos hc] at hv
    simp only [fieldValValues, List.map_map, List.mem_map, Function.comp] at hv
    obtain ⟨c, hcg, hceq⟩ := hv
    exact List.mem_map.mpr ⟨c, hcg, hceq⟩
  · rw [if_neg hc] at hv
    split at hv
    · simp [fieldValValues] at hv
    · rename_i v0 rest hg
      have hv0 : v0 ∈ group.map Prod.snd := by
        rw [hg]; exact List.mem_cons_self v0 rest
      split at hv
      · simp only [fieldValValues, List.mem_singleton] at hv
        rw [hv]; exact hv0
      · simp only [fieldValValues, List.mem_singleton] at hv
        rw [hv]; exact hv0

/-- Every value inside a Nested Record built from one row comes from that
row's cells. -/
lemma recordOfRow_values {α : Type} (tags : List String)
    (cols : List (String × String)) (row : List α) (v : α)
    (hv : v ∈ recordValues (recordOfRow tags cols row)) : v ∈ row := by
  unfold recordValues recordOfRow at hv
  simp only [List.map_map, List.mem_flatten, List.mem_map, Function.comp] at hv
  obtain ⟨l, ⟨f, hf, hleq⟩, hvl⟩ := hv
  rw [← hleq] at hvl
  have hmem := fieldOfGroup_values tags f _ v hvl
  simp only [List.mem_map, List.mem_filter] at hmem
  obtain ⟨c, ⟨hczip, _⟩, hceq⟩ := hmem
  rw [← hceq]
  exact (List.of_mem_zip hczip).2

/-- C8: the transformer is a pure, deterministic function of the Tabular
Result — two transformations of the same table denote the same record list —
and its records carry no hidden counters, timestamps, or other run-dependent
values: every value inside any produced Nested Record is a cell of some row
of the input table. -/
theorem transformer_values_from_table {α : Type} (tags : List String)
    (df : DataFrame α) (r : Record α)
    (hr : r ∈ multi_lvl_column_dataframe_to_dict tags df)
    (v : α) (hv : v ∈ recordValues r) :
    ∃ row ∈ df.rows, v ∈ row := by
  unfold multi_lvl_column_dataframe_to_dict at hr
  rw [rowsToRecords_eq_map] at hr
  obtain ⟨row, hrow, hreq⟩ := List.mem_map.mp hr
  rw [← hreq] at hv
  exact ⟨row, hrow, recordOfRow_values tags df.columns row v hv⟩

/-- A concrete one-row Tabular Result with scalar and per-tag fields. -/
def dfOne : DataFrame Int :=
  ⟨[("start", ""), ("end", ""), ("total-anomaly", ""),
    ("tag-anomaly", "tag-0"), ("tag-anomaly", "tag-1")],
   [[10, 20, 133, 91, 35]]⟩

/-- The Nested Record of the single row of `dfOne`. -/
def rowOneRecord : Record Int :=
  recordOfRow ["tag-0", "tag-1"] dfOne.columns [10, 20, 133, 91, 35]

/-- Witness for C8 at a concrete one-row table and the per-tag value 91. -/
theorem transformer_values_from_table_witness :
    ∃ row ∈ dfOne.rows, (91 : Int) ∈ row :=
  transformer_values_from_table ["tag-0", "tag-1"] dfOne rowOneRecord
    (by decide) 91 (by decide)
